import Mathlib

/-!
Shallow embedding of the Vibespine posture-monitoring core.

Numeric values carried by the JavaScript source as IEEE doubles are
modelled as rationals; all arithmetic in the embedded fragment is exact
(integer scores, literal decimal weights, sums and quotients), so the
rational model computes the same values the source computes on the
inputs of interest.

Embedded source locations:
- src/js/posture-analysis.js : analyzeNeckPosture, analyzeTorsoPosture,
  analyzeShoulderPosture, calculateOverallScore, applySmoothingFilter,
  calculateMovingAverage, resetSmoothing, extractMeasurements
  (validity/confidence part).
- src/unnamed/part_001 : classifyPosture, updateSessionData,
  saveSessionData (statistics merge and streak update), resetSettings
  (default settings).
-/

namespace Vibespine

/-- Five-state posture status used by the per-region analyses
(the shared unknown state never appears in region analyses). -/
inductive Status where
  | excellent
  | good
  | warning
  | poor
  deriving DecidableEq, Repr

/-- Severity rank along the chain excellent, good, warning, poor:
larger means worse. -/
def Status.severity : Status → Nat
  | .excellent => 0
  | .good => 1
  | .warning => 2
  | .poor => 3

/-- Result of one per-region analysis: numeric score, status, issue tags,
mirroring the object literals returned by the analyze functions in
src/js/posture-analysis.js. -/
structure RegionAnalysis where
  score : ℚ
  status : Status
  issues : List String
  deriving DecidableEq, Repr

/-- Shoulder measurements consumed by analyzeShoulderPosture:
smoothed asymmetry and forward projection. -/
structure ShoulderData where
  asymmetry : ℚ
  forwardProjection : ℚ
  deriving DecidableEq, Repr

/-- analyzeNeckPosture from src/js/posture-analysis.js lines 247-271:
banded on the absolute neck angle. -/
def analyzeNeckPosture (neckAngle : ℚ) : RegionAnalysis :=
  let absAngle := |neckAngle|
  if absAngle ≤ 5 then
    { score := 100, status := .excellent, issues := [] }
  else if absAngle ≤ 10 then
    { score := 85, status := .good, issues := [] }
  else if absAngle ≤ 20 then
    { score := 60, status := .warning,
      issues := [if neckAngle > 0 then "Forward head posture detected"
                 else "Head tilted backward"] }
  else
    { score := 30, status := .poor,
      issues := [if neckAngle > 0 then "Severe forward head posture"
                 else "Severe backward head tilt"] }

/-- analyzeTorsoPosture from src/js/posture-analysis.js lines 276-298. -/
def analyzeTorsoPosture (torsoAngle : ℚ) : RegionAnalysis :=
  if 85 ≤ torsoAngle ∧ torsoAngle ≤ 95 then
    { score := 100, status := .excellent, issues := [] }
  else if 80 ≤ torsoAngle ∧ torsoAngle ≤ 100 then
    { score := 80, status := .good, issues := [] }
  else if 70 ≤ torsoAngle ∧ torsoAngle ≤ 110 then
    { score := 50, status := .warning,
      issues := [if torsoAngle < 85 then "Leaning forward"
                 else "Leaning backward"] }
  else
    { score := 20, status := .poor,
      issues := [if torsoAngle < 70 then "Severe forward lean"
                 else "Severe backward lean"] }

/-- Intermediate accumulator of analyzeShoulderPosture: the mutable
local variables score, status, issues of the source function. -/
structure ShoulderAcc where
  score : ℚ
  status : Status
  issues : List String
  deriving DecidableEq, Repr

/-- The asymmetry penalty block of analyzeShoulderPosture
(src/js/posture-analysis.js lines 308-316). -/
def applyAsymmetryPenalty (asymmetry : ℚ) (acc : ShoulderAcc) : ShoulderAcc :=
  if asymmetry > 10 then
    { score := acc.score - 30, status := .warning,
      issues := acc.issues ++ ["Uneven shoulder height"] }
  else if asymmetry > 5 then
    { score := acc.score - 15,
      status := if acc.status = .excellent then .good else acc.status,
      issues := acc.issues }
  else acc

/-- The forward-projection penalty block of analyzeShoulderPosture
(src/js/posture-analysis.js lines 318-327). -/
def applyForwardPenalty (forwardProjection : ℚ) (acc : ShoulderAcc) : ShoulderAcc :=
  if forwardProjection > 20 then
    { score := acc.score - 40, status := .poor,
      issues := acc.issues ++ ["Rounded shoulders"] }
  else if forwardProjection > 15 then
    { score := acc.score - 20,
      status := if acc.status = .excellent then .warning else acc.status,
      issues := acc.issues ++ ["Slight shoulder rounding"] }
  else acc

/-- Initial accumulator of analyzeShoulderPosture: score 100, status
excellent, no issues (src/js/posture-analysis.js lines 304-306). -/
def shoulderAcc0 : ShoulderAcc :=
  { score := 100, status := .excellent, issues := [] }

/-- Accumulator after the asymmetry penalty block. -/
def shoulderAcc1 (d : ShoulderData) : ShoulderAcc :=
  applyAsymmetryPenalty d.asymmetry shoulderAcc0

/-- Accumulator after both penalty blocks. -/
def shoulderAcc2 (d : ShoulderData) : ShoulderAcc :=
  applyForwardPenalty d.forwardProjection (shoulderAcc1 d)

/-- analyzeShoulderPosture from src/js/posture-analysis.js lines 303-330:
start at score 100 / excellent, apply the asymmetry penalty, then the
forward-projection penalty. -/
def analyzeShoulderPosture (d : ShoulderData) : RegionAnalysis :=
  { score := (shoulderAcc2 d).score, status := (shoulderAcc2 d).status,
    issues := (shoulderAcc2 d).issues }

/-- The scoring weights from the constructor of PostureAnalysis
(src/js/posture-analysis.js lines 29-33). -/
structure Weights where
  neck : ℚ
  torso : ℚ
  shoulders : ℚ

/-- Default weights: neck 0.4, torso 0.35, shoulders 0.25. -/
def defaultWeights : Weights :=
  { neck := 0.4, torso := 0.35, shoulders := 0.25 }

/-- calculateOverallScore from src/js/posture-analysis.js lines 335-341. -/
def calculateOverallScore (w : Weights)
    (neckAnalysis torsoAnalysis shoulderAnalysis : RegionAnalysis) : ℚ :=
  neckAnalysis.score * w.neck +
  torsoAnalysis.score * w.torso +
  shoulderAnalysis.score * w.shoulders

/-- C1: for every frame, the overall posture score is exactly
0.40 times the neck sub-score plus 0.35 times the torso sub-score plus
0.25 times the shoulder sub-score; each of the three sub-scores lies in
the interval from 0 to 100, and therefore so does the overall score.
The analyses and the combination are pure functions of the smoothed
angles, so recomputation from the same smoothed angles yields the same
score definitionally. -/
theorem overall_score_weighted_sum_and_bounds
    (neckAngle torsoAngle : ℚ) (d : ShoulderData) :
    let n := analyzeNeckPosture neckAngle
    let t := analyzeTorsoPosture torsoAngle
    let s := analyzeShoulderPosture d
    calculateOverallScore defaultWeights n t s
      = 0.4 * n.score + 0.35 * t.score + 0.25 * s.score ∧
    (0 ≤ n.score ∧ n.score ≤ 100) ∧
    (0 ≤ t.score ∧ t.score ≤ 100) ∧
    (0 ≤ s.score ∧ s.score ≤ 100) ∧
    0 ≤ calculateOverallScore defaultWeights n t s ∧
    calculateOverallScore defaultWeights n t s ≤ 100 := by
  have hn : 0 ≤ (analyzeNeckPosture neckAngle).score ∧
      (analyzeNeckPosture neckAngle).score ≤ 100 := by
    simp only [analyzeNeckPosture]
    split_ifs <;> norm_num
  have ht : 0 ≤ (analyzeTorsoPosture torsoAngle).score ∧
      (analyzeTorsoPosture torsoAngle).score ≤ 100 := by
    simp only [analyzeTorsoPosture]
    split_ifs <;> norm_num
  have hs : 0 ≤ (analyzeShoulderPosture d).score ∧
      (analyzeShoulderPosture d).score ≤ 100 := by
    simp only [analyzeShoulderPosture, shoulderAcc2, shoulderAcc1, shoulderAcc0,
      applyAsymmetryPenalty, applyForwardPenalty]
    split_ifs <;> norm_num
  refine ⟨by simp only [calculateOverallScore, defaultWeights]; ring, hn, ht, hs, ?_, ?_⟩
  · simp only [calculateOverallScore, defaultWeights]
    nlinarith [hn.1, ht.1, hs.1]
  · simp only [calculateOverallScore, defaultWeights]
    nlinarith [hn.2, ht.2, hs.2]

/-- C3 counterexample: at asymmetry 7 and forward projection 17, the
slight-rounding penalty applies (its assigned severity in the source is
warning, the status that branch writes when escalating), its issue tag
is recorded, yet the final status is good, which is strictly less severe
than warning: the penalty escalates only from excellent, so a status of
good is not raised to the severity of the triggering issue. -/
theorem shoulder_severity_counterexample :
    (15 : ℚ) < 17 ∧ ¬ ((20 : ℚ) < 17) ∧
    (analyzeShoulderPosture { asymmetry := 7, forwardProjection := 17 }).issues
      = ["Slight shoulder rounding"] ∧
    (analyzeShoulderPosture { asymmetry := 7, forwardProjection := 17 }).status
      = Status.good ∧
    Status.severity Status.good < Status.severity Status.warning := by
  refine ⟨by norm_num, by norm_num, ?_, ?_, by decide⟩ <;>
    norm_num [analyzeShoulderPosture, shoulderAcc2, shoulderAcc1, shoulderAcc0,
      applyAsymmetryPenalty, applyForwardPenalty] <;>
    decide

/-- C3 amended: as the two penalty blocks of analyzeShoulderPosture are
applied in order, the status only moves down the chain
excellent, good, warning, poor (severity never decreases, so the status
is never upgraded); the unconditional penalties guarantee at least their
own severity (asymmetry above 10 yields at least warning; forward
projection above 20 yields poor; asymmetry above 5 yields at least good),
but the slight-rounding penalty (forward projection in the interval from
15 to 20) escalates only from excellent, so a status of good may remain
good, below the severity warning of its triggering issue. -/
theorem shoulder_status_monotone (d : ShoulderData) :
    (analyzeShoulderPosture d).status = (shoulderAcc2 d).status ∧
    Status.severity shoulderAcc0.status ≤ Status.severity (shoulderAcc1 d).status ∧
    Status.severity (shoulderAcc1 d).status ≤ Status.severity (shoulderAcc2 d).status ∧
    (10 < d.asymmetry →
      Status.severity Status.warning ≤ Status.severity (shoulderAcc1 d).status) ∧
    (5 < d.asymmetry →
      Status.severity Status.good ≤ Status.severity (shoulderAcc1 d).status) ∧
    (20 < d.forwardProjection → (shoulderAcc2 d).status = Status.poor) := by
  refine ⟨rfl, ?_, ?_, ?_, ?_, ?_⟩ <;>
    simp only [shoulderAcc2, shoulderAcc1, shoulderAcc0,
      applyAsymmetryPenalty, applyForwardPenalty] <;>
    split_ifs <;>
    simp_all [Status.severity]

/-- Witness for shoulder_status_monotone at a concrete input that
satisfies all three penalty hypotheses. -/
theorem shoulder_status_monotone_witness :
    (10 : ℚ) < 12 ∧ (5 : ℚ) < 12 ∧ (20 : ℚ) < 25 ∧
    (shoulderAcc2 { asymmetry := 12, forwardProjection := 25 }).status
      = Status.poor := by
  have h := shoulder_status_monotone { asymmetry := 12, forwardProjection := 25 }
  exact ⟨by norm_num, by norm_num, by norm_num, h.2.2.2.2.2 (by norm_num)⟩

/-! Embedding of classifyPosture and the default settings from
src/unnamed/part_001. -/

/-- The threshold settings consumed by classifyPosture
(subset of the settings object in src/unnamed/part_001). -/
structure Settings where
  neckThreshold : ℚ
  torsoThresholdMin : ℚ
  torsoThresholdMax : ℚ
  deriving DecidableEq, Repr

/-- Default settings from resetSettings in src/unnamed/part_001
lines 1246-1257 (also the constructor defaults): neck threshold 15,
torso threshold 85 to 95. -/
def defaultSettings : Settings :=
  { neckThreshold := 15, torsoThresholdMin := 85, torsoThresholdMax := 95 }

/-- Binary posture state produced by classifyPosture. -/
inductive PostureClass where
  | good
  | poor
  deriving DecidableEq, Repr

/-- classifyPosture from src/unnamed/part_001 lines 580-590: neck angle
at most the neck threshold, and torso angle between torsoThresholdMin
and torsoThresholdMax plus 15. -/
def classifyPosture (s : Settings) (neckAngle torsoAngle : ℚ) : PostureClass :=
  let neckGood := neckAngle ≤ s.neckThreshold
  let torsoGood := s.torsoThresholdMin ≤ torsoAngle ∧
                   torsoAngle ≤ s.torsoThresholdMax + 15
  if neckGood ∧ torsoGood then .good else .poor

/-- C4 counterexample: with the default settings
(torsoThresholdMax = 95), a frame with neck angle 10 and torso angle 105
is classified good by the source, although 105 exceeds
torsoThresholdMax: the source compares against torsoThresholdMax + 15,
not torsoThresholdMax. -/
theorem classifyPosture_counterexample :
    classifyPosture defaultSettings 10 105 = PostureClass.good ∧
    ¬ ((105 : ℚ) ≤ defaultSettings.torsoThresholdMax) := by
  constructor
  · simp [classifyPosture, defaultSettings]
    norm_num
  · simp [defaultSettings]
    norm_num

/-- C4 amended: classifyPosture returns good exactly when the neck angle
is at most the configured neck threshold and the torso angle lies
between torsoThresholdMin and torsoThresholdMax plus 15 (the source
widens the configured upper bound by 15 degrees); otherwise it returns
poor. -/
theorem classifyPosture_characterization (s : Settings) (neckAngle torsoAngle : ℚ) :
    (classifyPosture s neckAngle torsoAngle = PostureClass.good ↔
      (neckAngle ≤ s.neckThreshold ∧
       s.torsoThresholdMin ≤ torsoAngle ∧
       torsoAngle ≤ s.torsoThresholdMax + 15)) ∧
    (classifyPosture s neckAngle torsoAngle = PostureClass.poor ↔
      ¬ (neckAngle ≤ s.neckThreshold ∧
         s.torsoThresholdMin ≤ torsoAngle ∧
         torsoAngle ≤ s.torsoThresholdMax + 15)) := by
  simp only [classifyPosture]
  split_ifs with h
  · simp_all [and_assoc]
  · simp_all [and_assoc]

/-! Embedding of the temporal smoothing filter from
src/js/posture-analysis.js. -/

/-- The smoothing window capacity from the PostureAnalysis constructor
(src/js/posture-analysis.js line 36). -/
def smoothingWindow : ℕ := 10

/-- One channel update of applySmoothingFilter
(src/js/posture-analysis.js lines 210-219): push the raw value at the
end, then shift off the oldest value when the window length exceeds the
capacity. -/
def pushMeasurement (w : List ℚ) (v : ℚ) : List ℚ :=
  if smoothingWindow < (w ++ [v]).length then (w ++ [v]).drop 1 else w ++ [v]

/-- calculateMovingAverage from src/js/posture-analysis.js
lines 239-242: zero for an empty list, otherwise sum over length. -/
def calculateMovingAverage (values : List ℚ) : ℚ :=
  if values.length = 0 then 0 else values.sum / values.length

/-- Raw measurements of one valid frame, the part consumed by
applySmoothingFilter. -/
structure Measurements where
  neckAngle : ℚ
  torsoAngle : ℚ
  shoulderData : ShoulderData
  deriving DecidableEq, Repr

/-- The three per-channel rolling windows (the recentMeasurements object
from the PostureAnalysis constructor). -/
structure SmoothState where
  neck : List ℚ
  torso : List ℚ
  shoulders : List ℚ
  deriving DecidableEq, Repr

/-- applySmoothingFilter from src/js/posture-analysis.js lines 208-234:
fold the raw values into the three windows and emit the moving average
of each window; the forward projection passes through unchanged. -/
def applySmoothingFilter (st : SmoothState) (m : Measurements) :
    SmoothState × Measurements :=
  let neck := pushMeasurement st.neck m.neckAngle
  let torso := pushMeasurement st.torso m.torsoAngle
  let shoulders := pushMeasurement st.shoulders m.shoulderData.asymmetry
  (⟨neck, torso, shoulders⟩,
   { neckAngle := calculateMovingAverage neck,
     torsoAngle := calculateMovingAverage torso,
     shoulderData :=
       { asymmetry := calculateMovingAverage shoulders,
         forwardProjection := m.shoulderData.forwardProjection } })

/-- resetSmoothing from src/js/posture-analysis.js lines 417-423: all
three windows become empty. -/
def resetSmoothing : SmoothState :=
  { neck := [], torso := [], shoulders := [] }

/-- Feeding a sequence of frames through the smoothing filter,
keeping only the window state. -/
def runSmoothing (st : SmoothState) (ms : List Measurements) : SmoothState :=
  ms.foldl (fun s m => (applySmoothingFilter s m).1) st

/-- Projection: the updated windows of applySmoothingFilter are the
per-channel pushes. -/
theorem applySmoothingFilter_fst (st : SmoothState) (m : Measurements) :
    (applySmoothingFilter st m).1
      = ⟨pushMeasurement st.neck m.neckAngle,
         pushMeasurement st.torso m.torsoAngle,
         pushMeasurement st.shoulders m.shoulderData.asymmetry⟩ := rfl

/-- Projection: the emitted smoothed neck angle is the moving average of
the updated neck window. -/
theorem applySmoothingFilter_snd_neck (st : SmoothState) (m : Measurements) :
    (applySmoothingFilter st m).2.neckAngle
      = calculateMovingAverage (pushMeasurement st.neck m.neckAngle) := rfl

/-- Projection: the emitted smoothed torso angle is the moving average
of the updated torso window. -/
theorem applySmoothingFilter_snd_torso (st : SmoothState) (m : Measurements) :
    (applySmoothingFilter st m).2.torsoAngle
      = calculateMovingAverage (pushMeasurement st.torso m.torsoAngle) := rfl

/-- Projection: the emitted smoothed shoulder asymmetry is the moving
average of the updated shoulder window. -/
theorem applySmoothingFilter_snd_shoulders (st : SmoothState) (m : Measurements) :
    (applySmoothingFilter st m).2.shoulderData.asymmetry
      = calculateMovingAverage
          (pushMeasurement st.shoulders m.shoulderData.asymmetry) := rfl

/-- A window within capacity stays within capacity across one push. -/
theorem pushMeasurement_length_le (w : List ℚ) (v : ℚ)
    (h : w.length ≤ smoothingWindow) :
    (pushMeasurement w v).length ≤ smoothingWindow := by
  simp only [pushMeasurement]
  split_ifs with hfull <;>
    simp only [List.length_drop, List.length_append, List.length_cons,
      List.length_nil] at * <;>
    omega

/-- Folding raw values into a window keeps exactly the suffix of the
fed stream (preceded by the surviving old values) that fits the
capacity: the window after the fold is the appended list with its
oldest overflow dropped. -/
theorem foldl_pushMeasurement_suffix (vs : List ℚ) :
    ∀ w : List ℚ, w.length ≤ smoothingWindow →
      List.foldl pushMeasurement w vs
        = (w ++ vs).drop (w.length + vs.length - smoothingWindow) := by
  induction vs with
  | nil =>
    intro w hw
    simp only [List.foldl_nil, List.append_nil, List.length_nil, Nat.add_zero]
    rw [Nat.sub_eq_zero_of_le hw, List.drop_zero]
  | cons v tl ih =>
    intro w hw
    rw [List.foldl_cons]
    by_cases hfull : smoothingWindow < (w ++ [v]).length
    · have hpush : pushMeasurement w v = (w ++ [v]).drop 1 := by
        unfold pushMeasurement
        rw [if_pos hfull]
      have hlen : ((w ++ [v]).drop 1).length ≤ smoothingWindow := by
        simp only [List.length_drop, List.length_append, List.length_cons,
          List.length_nil]
        omega
      rw [hpush, ih _ hlen]
      have hsplit : w ++ v :: tl = (w ++ [v]) ++ tl := by simp
      rw [hsplit]
      have hamount : w.length + (v :: tl).length - smoothingWindow
          = 1 + tl.length := by
        simp only [List.length_append, List.length_cons, List.length_nil] at hfull
        simp only [List.length_cons]
        omega
      rw [hamount, ← List.drop_drop]
      have hD : List.drop 1 ((w ++ [v]) ++ tl) = (w ++ [v]).drop 1 ++ tl :=
        List.drop_append_of_le_length (by simp)
      rw [hD]
      congr 1
      simp only [List.length_append, List.length_cons, List.length_nil] at hfull
      simp only [List.length_drop, List.length_append, List.length_cons,
        List.length_nil]
      omega
    · have hpush : pushMeasurement w v = w ++ [v] := by
        unfold pushMeasurement
        rw [if_neg hfull]
      have hlen : (w ++ [v]).length ≤ smoothingWindow := by omega
      rw [hpush, ih _ hlen]
      have hsplit : w ++ v :: tl = (w ++ [v]) ++ tl := by simp
      rw [hsplit]
      congr 1
      simp only [List.length_append, List.length_cons, List.length_nil]
      omega

/-- A window within capacity stays within capacity across any fold of
raw values. -/
theorem foldl_pushMeasurement_length_le (vs : List ℚ) (w : List ℚ)
    (hw : w.length ≤ smoothingWindow) :
    (List.foldl pushMeasurement w vs).length ≤ smoothingWindow := by
  rw [foldl_pushMeasurement_suffix vs w hw]
  simp only [List.length_drop, List.length_append]
  omega

/-- After a window within capacity absorbs fourteen constant values and
one more, the moving average of the resulting window is that constant. -/
theorem mean_after_const_feed (w : List ℚ) (hw : w.length ≤ smoothingWindow)
    (v : ℚ) :
    calculateMovingAverage
      (pushMeasurement (List.foldl pushMeasurement w (List.replicate 14 v)) v)
      = v := by
  have h15 : pushMeasurement (List.foldl pushMeasurement w (List.replicate 14 v)) v
      = List.foldl pushMeasurement w (List.replicate 14 v ++ [v]) := by
    rw [List.foldl_append, List.foldl_cons, List.foldl_nil]
  rw [h15, foldl_pushMeasurement_suffix (List.replicate 14 v ++ [v]) w hw]
  have hd : w.length + (List.replicate 14 v ++ [v]).length - smoothingWindow
      = w.length + 5 := by
    simp only [List.length_append, List.length_replicate, List.length_cons,
      List.length_nil, smoothingWindow]
    omega
  rw [hd, List.drop_append]
  have hdr : (List.replicate 14 v ++ [v]).drop 5 = List.replicate 9 v ++ [v] := by
    rw [List.drop_append_of_le_length (by simp), List.drop_replicate]
  rw [hdr]
  simp only [calculateMovingAverage, List.length_append, List.length_replicate,
    List.length_cons, List.length_nil, List.sum_append, List.sum_replicate,
    List.sum_cons, List.sum_nil, nsmul_eq_mul]
  norm_num
  ring

/-- The neck window of runSmoothing is the per-channel fold of the neck
angles. -/
theorem runSmoothing_neck (ms : List Measurements) :
    ∀ st : SmoothState, (runSmoothing st ms).neck
      = List.foldl pushMeasurement st.neck (ms.map fun m => m.neckAngle) := by
  induction ms with
  | nil => intro st; rfl
  | cons m tl ih =>
    intro st
    have h : runSmoothing st (m :: tl)
        = runSmoothing ((applySmoothingFilter st m).1) tl := rfl
    rw [h, ih]
    rfl

/-- The torso window of runSmoothing is the per-channel fold of the
torso angles. -/
theorem runSmoothing_torso (ms : List Measurements) :
    ∀ st : SmoothState, (runSmoothing st ms).torso
      = List.foldl pushMeasurement st.torso (ms.map fun m => m.torsoAngle) := by
  induction ms with
  | nil => intro st; rfl
  | cons m tl ih =>
    intro st
    have h : runSmoothing st (m :: tl)
        = runSmoothing ((applySmoothingFilter st m).1) tl := rfl
    rw [h, ih]
    rfl

/-- The shoulder window of runSmoothing is the per-channel fold of the
shoulder asymmetries. -/
theorem runSmoothing_shoulders (ms : List Measurements) :
    ∀ st : SmoothState, (runSmoothing st ms).shoulders
      = List.foldl pushMeasurement st.shoulders
          (ms.map fun m => m.shoulderData.asymmetry) := by
  induction ms with
  | nil => intro st; rfl
  | cons m tl ih =>
    intro st
    have h : runSmoothing st (m :: tl)
        = runSmoothing ((applySmoothingFilter st m).1) tl := rfl
    rw [h, ih]
    rfl

/-- C5: when the three windows are within the capacity of
N = 10, folding one frame in leaves every window within the capacity
(FIFO eviction of the oldest), and after feeding 15 consecutive frames
with constant raw values the emitted window mean of each channel equals
the constant exactly. -/
theorem smoothing_capacity_and_constant_mean (st : SmoothState) (m : Measurements)
    (h1 : st.neck.length ≤ smoothingWindow)
    (h2 : st.torso.length ≤ smoothingWindow)
    (h3 : st.shoulders.length ≤ smoothingWindow) :
    ((applySmoothingFilter st m).1.neck.length ≤ smoothingWindow ∧
     (applySmoothingFilter st m).1.torso.length ≤ smoothingWindow ∧
     (applySmoothingFilter st m).1.shoulders.length ≤ smoothingWindow) ∧
    ((applySmoothingFilter (runSmoothing st (List.replicate 14 m)) m).2.neckAngle
        = m.neckAngle ∧
     (applySmoothingFilter (runSmoothing st (List.replicate 14 m)) m).2.torsoAngle
        = m.torsoAngle ∧
     (applySmoothingFilter (runSmoothing st (List.replicate 14 m)) m).2.shoulderData.asymmetry
        = m.shoulderData.asymmetry) ∧
    (∀ ms : List Measurements,
      (runSmoothing st ms).neck.length ≤ smoothingWindow ∧
      (runSmoothing st ms).torso.length ≤ smoothingWindow ∧
      (runSmoothing st ms).shoulders.length ≤ smoothingWindow) := by
  refine ⟨⟨?_, ?_, ?_⟩, ⟨?_, ?_, ?_⟩, ?_⟩
  · rw [applySmoothingFilter_fst]
    exact pushMeasurement_length_le _ _ h1
  · rw [applySmoothingFilter_fst]
    exact pushMeasurement_length_le _ _ h2
  · rw [applySmoothingFilter_fst]
    exact pushMeasurement_length_le _ _ h3
  · rw [applySmoothingFilter_snd_neck, runSmoothing_neck, List.map_replicate]
    exact mean_after_const_feed st.neck h1 m.neckAngle
  · rw [applySmoothingFilter_snd_torso, runSmoothing_torso, List.map_replicate]
    exact mean_after_const_feed st.torso h2 m.torsoAngle
  · rw [applySmoothingFilter_snd_shoulders, runSmoothing_shoulders,
      List.map_replicate]
    exact mean_after_const_feed st.shoulders h3 m.shoulderData.asymmetry
  · intro ms
    refine ⟨?_, ?_, ?_⟩
    · rw [runSmoothing_neck]
      exact foldl_pushMeasurement_length_le _ _ h1
    · rw [runSmoothing_torso]
      exact foldl_pushMeasurement_length_le _ _ h2
    · rw [runSmoothing_shoulders]
      exact foldl_pushMeasurement_length_le _ _ h3

/-- Witness for smoothing_capacity_and_constant_mean: empty windows and
a concrete frame satisfy the hypotheses. -/
theorem smoothing_capacity_and_constant_mean_witness :
    resetSmoothing.neck.length ≤ smoothingWindow ∧
    resetSmoothing.torso.length ≤ smoothingWindow ∧
    resetSmoothing.shoulders.length ≤ smoothingWindow ∧
    (applySmoothingFilter
      (runSmoothing resetSmoothing
        (List.replicate 14 ⟨1, 2, ⟨3, 4⟩⟩)) ⟨1, 2, ⟨3, 4⟩⟩).2.neckAngle = 1 :=
  ⟨by decide, by decide, by decide,
   (smoothing_capacity_and_constant_mean resetSmoothing ⟨1, 2, ⟨3, 4⟩⟩
     (by decide) (by decide) (by decide)).2.1.1⟩

/-- C10: after resetSmoothing all three windows are empty, and the
smoothed values emitted for the next frame equal that frame's raw
values exactly (the moving average of a one-element window is the
identity); the forward projection also passes through unchanged. -/
theorem reset_then_first_frame_identity (m : Measurements) :
    resetSmoothing.neck = [] ∧ resetSmoothing.torso = [] ∧
    resetSmoothing.shoulders = [] ∧
    (applySmoothingFilter resetSmoothing m).2.neckAngle = m.neckAngle ∧
    (applySmoothingFilter resetSmoothing m).2.torsoAngle = m.torsoAngle ∧
    (applySmoothingFilter resetSmoothing m).2.shoulderData.asymmetry
      = m.shoulderData.asymmetry ∧
    (applySmoothingFilter resetSmoothing m).2.shoulderData.forwardProjection
      = m.shoulderData.forwardProjection := by
  refine ⟨rfl, rfl, rfl, ?_, ?_, ?_, rfl⟩ <;>
    simp [applySmoothingFilter, resetSmoothing, pushMeasurement,
      calculateMovingAverage, smoothingWindow]

/-! Embedding of the session aggregator from src/unnamed/part_001. -/

/-- One history sample pushed by updateSessionData
(src/unnamed/part_001 lines 603-609). -/
structure HistoryEntry where
  timestamp : ℤ
  state : PostureClass
  neckAngle : ℚ
  torsoAngle : ℚ
  deriving DecidableEq, Repr

/-- The per-session accumulators (the sessionData object initialised at
session start in src/unnamed/part_001 lines 387-393). -/
structure SessionData where
  totalTime : ℤ
  goodPostureTime : ℕ
  poorPostureWarnings : ℕ
  postureHistory : List HistoryEntry
  deriving DecidableEq, Repr

/-- The monitoring state consumed by updateSessionData: the optional
session start time, the accumulators, and the current angles. -/
structure SessionState where
  sessionStartTime : Option ℤ
  sessionData : SessionData
  currentNeckAngle : ℚ
  currentTorsoAngle : ℚ
  deriving DecidableEq, Repr

/-- The history sample built by updateSessionData for one frame. -/
def historyEntry (st : SessionState) (now : ℤ) (postureState : PostureClass) :
    HistoryEntry :=
  { timestamp := now, state := postureState,
    neckAngle := st.currentNeckAngle, torsoAngle := st.currentTorsoAngle }

/-- The history append with eviction from updateSessionData
(src/unnamed/part_001 lines 611-614): push the sample, and when the
history exceeds 1000 entries keep only the most recent 500. -/
def appendHistory (h : List HistoryEntry) (e : HistoryEntry) : List HistoryEntry :=
  if 1000 < (h ++ [e]).length then (h ++ [e]).drop ((h ++ [e]).length - 500)
  else h ++ [e]

/-- updateSessionData from src/unnamed/part_001 lines 592-615: while a
session start time is set, refresh the elapsed total time and add a
fixed 100 milliseconds to the good-posture time on a good frame; in
every case append a history sample with eviction. -/
def updateSessionData (st : SessionState) (now : ℤ)
    (postureState : PostureClass) : SessionState :=
  let sd := st.sessionData
  let sd1 :=
    match st.sessionStartTime with
    | some start =>
        { sd with
          totalTime := now - start,
          goodPostureTime :=
            if postureState = PostureClass.good then sd.goodPostureTime + 100
            else sd.goodPostureTime }
    | none => sd
  { st with
    sessionData :=
      { sd1 with
        postureHistory :=
          appendHistory sd1.postureHistory (historyEntry st now postureState) } }

/-- Projection: the history after updateSessionData is the evicting
append of the new sample. -/
theorem updateSessionData_history (st : SessionState) (now : ℤ)
    (p : PostureClass) :
    (updateSessionData st now p).sessionData.postureHistory
      = appendHistory st.sessionData.postureHistory (historyEntry st now p) := by
  cases h : st.sessionStartTime <;>
    simp [updateSessionData, h]

/-- Projection: updateSessionData never changes the session start time. -/
theorem updateSessionData_startTime (st : SessionState) (now : ℤ)
    (p : PostureClass) :
    (updateSessionData st now p).sessionStartTime = st.sessionStartTime := by
  cases h : st.sessionStartTime <;>
    simp [updateSessionData, h]

/-- Projection: the good-posture time after updateSessionData while
running. -/
theorem updateSessionData_goodTime (st : SessionState) (now start : ℤ)
    (p : PostureClass) (hrun : st.sessionStartTime = some start) :
    (updateSessionData st now p).sessionData.goodPostureTime
      = st.sessionData.goodPostureTime
        + (if p = .good then 100 else 0) := by
  simp only [updateSessionData, hrun]
  split_ifs <;> simp

/-- The evicting append keeps the history within 1000 entries and, at
exactly 1000 entries, evicts down to the most recent 500. -/
theorem appendHistory_spec (h : List HistoryEntry) (e : HistoryEntry)
    (hle : h.length ≤ 1000) :
    (appendHistory h e).length ≤ 1000 ∧
    (h.length = 1000 →
      appendHistory h e = (h ++ [e]).drop 501 ∧
      (appendHistory h e).length = 500) := by
  unfold appendHistory
  by_cases hfull : 1000 < (h ++ [e]).length
  · rw [if_pos hfull]
    constructor
    · simp only [List.length_drop, List.length_append, List.length_cons,
        List.length_nil] at *
      omega
    · intro h1000
      have ha : (h ++ [e]).length - 500 = 501 := by
        simp only [List.length_append, List.length_cons, List.length_nil]
        omega
      rw [ha]
      refine ⟨rfl, ?_⟩
      simp only [List.length_drop, List.length_append, List.length_cons,
        List.length_nil]
      omega
  · rw [if_neg hfull]
    simp only [List.length_append, List.length_cons, List.length_nil] at *
    constructor
    · omega
    · intro h1000
      exact absurd (by omega) hfull

/-- C6: when the session history holds at most 1000 entries, it still
holds at most 1000 entries after an append completes, and appending to
a history of exactly 1000 entries (the 1001st sample) evicts down to
exactly the most recent 500 entries. -/
theorem session_history_bound (st : SessionState) (now : ℤ) (p : PostureClass)
    (hle : st.sessionData.postureHistory.length ≤ 1000) :
    (updateSessionData st now p).sessionData.postureHistory.length ≤ 1000 ∧
    (st.sessionData.postureHistory.length = 1000 →
      (updateSessionData st now p).sessionData.postureHistory
        = (st.sessionData.postureHistory ++ [historyEntry st now p]).drop 501 ∧
      (updateSessionData st now p).sessionData.postureHistory.length = 500) := by
  rw [updateSessionData_history]
  exact appendHistory_spec st.sessionData.postureHistory (historyEntry st now p) hle

/-- Witness for session_history_bound: a concrete state with exactly
1000 history entries. -/
theorem session_history_bound_witness :
    (List.replicate 1000 (⟨0, .good, 0, 0⟩ : HistoryEntry)).length ≤ 1000 ∧
    (updateSessionData
      ⟨some 0, ⟨0, 0, 0, List.replicate 1000 ⟨0, .good, 0, 0⟩⟩, 0, 0⟩
      5 .poor).sessionData.postureHistory.length = 500 :=
  ⟨by rw [List.length_replicate],
   ((session_history_bound
      ⟨some 0, ⟨0, 0, 0, List.replicate 1000 ⟨0, .good, 0, 0⟩⟩, 0, 0⟩
      5 .poor (by rw [List.length_replicate])).2
      (by rw [List.length_replicate])).2⟩

/-- Processing a stream of frames (timestamp, binary state) through
updateSessionData. -/
def processFrames (st : SessionState) (fs : List (ℤ × PostureClass)) :
    SessionState :=
  fs.foldl (fun s f => updateSessionData s f.1 f.2) st

/-- Over any frame stream, while running, the good-posture time grows by
exactly 100 per good frame, independent of the frame timestamps. -/
theorem processFrames_goodTime (fs : List (ℤ × PostureClass)) :
    ∀ (st : SessionState) (start : ℤ), st.sessionStartTime = some start →
      (processFrames st fs).sessionData.goodPostureTime
        = st.sessionData.goodPostureTime
          + 100 * fs.countP (fun f => f.2 == PostureClass.good) := by
  induction fs with
  | nil => intro st start hrun; simp [processFrames]
  | cons f tl ih =>
    intro st start hrun
    have hstep : processFrames st (f :: tl)
        = processFrames (updateSessionData st f.1 f.2) tl := rfl
    have hrun2 : (updateSessionData st f.1 f.2).sessionStartTime = some start := by
      rw [updateSessionData_startTime, hrun]
    rw [hstep, ih _ start hrun2,
      updateSessionData_goodTime st f.1 start f.2 hrun, List.countP_cons]
    cases hgood : f.2 <;> simp <;> ring

/-- C9: while a session is running, a good frame adds exactly 100
milliseconds to the good-posture time and a poor frame leaves it
unchanged; the increment is a fixed constant independent of the real
time between frames, so starting from zero the good-posture time after
a frame stream equals 100 times the number of good frames, whatever the
timestamps are. -/
theorem good_time_accumulation (st : SessionState) (now start : ℤ)
    (hrun : st.sessionStartTime = some start) :
    (updateSessionData st now PostureClass.good).sessionData.goodPostureTime
      = st.sessionData.goodPostureTime + 100 ∧
    (updateSessionData st now PostureClass.poor).sessionData.goodPostureTime
      = st.sessionData.goodPostureTime ∧
    (st.sessionData.goodPostureTime = 0 →
      ∀ fs : List (ℤ × PostureClass),
        (processFrames st fs).sessionData.goodPostureTime
          = 100 * fs.countP (fun f => f.2 == PostureClass.good)) := by
  refine ⟨?_, ?_, ?_⟩
  · rw [updateSessionData_goodTime st now start _ hrun]
    simp
  · rw [updateSessionData_goodTime st now start _ hrun]
    simp
  · intro hzero fs
    rw [processFrames_goodTime fs st start hrun, hzero, Nat.zero_add]

/-- Witness for good_time_accumulation: a concrete running state and a
stream with two good frames among three. -/
theorem good_time_accumulation_witness :
    (⟨some 0, ⟨0, 0, 0, []⟩, 0, 0⟩ : SessionState).sessionStartTime = some 0 ∧
    (⟨some 0, ⟨0, 0, 0, []⟩, 0, 0⟩ : SessionState).sessionData.goodPostureTime = 0 ∧
    (processFrames ⟨some 0, ⟨0, 0, 0, []⟩, 0, 0⟩
      [(5, .good), (7, .poor), (1000, .good)]).sessionData.goodPostureTime
      = 100 * 2 :=
  ⟨rfl, rfl, by
    have h := (good_time_accumulation ⟨some 0, ⟨0, 0, 0, []⟩, 0, 0⟩ 0 0 rfl).2.2
      rfl [(5, .good), (7, .poor), (1000, .good)]
    rw [h]
    rfl⟩

/-! Embedding of the statistics merge (saveSessionData) from
src/unnamed/part_001. -/

/-- The persistent statistics record touched by saveSessionData
(src/unnamed/part_001 lines 1263-1298). Calendar dates are modelled as
day indices (consecutive days differ by one); the weekly-data array and
the achievement check, which the claims do not touch, are left to the
excluded UI layer. -/
structure Stats where
  totalSessions : ℕ
  totalTime : ℚ
  avgScore : ℚ
  currentStreak : ℕ
  bestStreak : ℕ
  lastSessionDate : Option ℕ
  deriving DecidableEq, Repr

/-- The session score expression of saveSessionData
(src/unnamed/part_001 lines 1270-1271): good time over total time times
100 when the total time is positive, otherwise 0. -/
def sessionScore (goodPostureTime totalTime : ℚ) : ℚ :=
  if 0 < totalTime then goodPostureTime / totalTime * 100 else 0

/-- saveSessionData from src/unnamed/part_001 lines 1263-1298
(statistics merge): increment the session count, accumulate time,
fold the session score into the running average, and update the daily
streak — on a new calendar date the streak increments when the session
score is at least 70 and resets to 0 otherwise; on the same date it is
untouched. -/
def saveSessionData (stats : Stats) (goodPostureTime totalTime : ℚ)
    (today : ℕ) : Stats :=
  let totalSessions := stats.totalSessions + 1
  let score := sessionScore goodPostureTime totalTime
  let avgScore :=
    (stats.avgScore * ((totalSessions - 1 : ℕ) : ℚ) + score) / (totalSessions : ℚ)
  if stats.lastSessionDate ≠ some today then
    if 70 ≤ score then
      { totalSessions := totalSessions,
        totalTime := stats.totalTime + totalTime,
        avgScore := avgScore,
        currentStreak := stats.currentStreak + 1,
        bestStreak := max stats.bestStreak (stats.currentStreak + 1),
        lastSessionDate := some today }
    else
      { totalSessions := totalSessions,
        totalTime := stats.totalTime + totalTime,
        avgScore := avgScore,
        currentStreak := 0,
        bestStreak := stats.bestStreak,
        lastSessionDate := some today }
  else
    { totalSessions := totalSessions,
      totalTime := stats.totalTime + totalTime,
      avgScore := avgScore,
      currentStreak := stats.currentStreak,
      bestStreak := stats.bestStreak,
      lastSessionDate := stats.lastSessionDate }

/-- C2 counterexample: with the last session on day 0, a streak of 1,
and the next session on day 2 (day 1 has no session) scoring 80, the
source increments the streak to 2; the claim requires the missed day to
reset the streak to 0 on this next qualifying session. The source never
compares calendar dates for consecutiveness — it only checks that the
date changed. -/
theorem streak_gap_counterexample :
    (0 : ℕ) + 1 ≠ 2 ∧
    (70 : ℚ) ≤ sessionScore 80 100 ∧
    (saveSessionData ⟨1, 0, 80, 1, 1, some 0⟩ 80 100 2).currentStreak = 2 := by
  refine ⟨by norm_num, ?_, ?_⟩
  · norm_num [sessionScore]
  · norm_num [saveSessionData, sessionScore]

/-- C2 amended: the first session of each new calendar date increments
the streak by 1 when its score is at least 70 — whether or not the date
is consecutive with the previous session date — and resets it to 0 when
the score is below 70; further sessions on the same date leave the
streak untouched; the best streak is the running maximum of the current
streak. -/
theorem saveSessionData_streak (stats : Stats) (g t : ℚ) (today : ℕ) :
    (stats.lastSessionDate ≠ some today → 70 ≤ sessionScore g t →
      (saveSessionData stats g t today).currentStreak = stats.currentStreak + 1 ∧
      (saveSessionData stats g t today).bestStreak
        = max stats.bestStreak (stats.currentStreak + 1) ∧
      (saveSessionData stats g t today).lastSessionDate = some today) ∧
    (stats.lastSessionDate ≠ some today → sessionScore g t < 70 →
      (saveSessionData stats g t today).currentStreak = 0 ∧
      (saveSessionData stats g t today).bestStreak = stats.bestStreak ∧
      (saveSessionData stats g t today).lastSessionDate = some today) ∧
    (stats.lastSessionDate = some today →
      (saveSessionData stats g t today).currentStreak = stats.currentStreak ∧
      (saveSessionData stats g t today).bestStreak = stats.bestStreak ∧
      (saveSessionData stats g t today).lastSessionDate = stats.lastSessionDate) := by
  simp only [saveSessionData]
  split_ifs with hdate hscore <;>
    simp_all

/-- Witness for saveSessionData_streak: a concrete statistics record
and sessions discharging each of the three cases' hypotheses. -/
theorem saveSessionData_streak_witness :
    ((⟨1, 0, 80, 1, 1, some 0⟩ : Stats).lastSessionDate ≠ some 2 ∧
      (70 : ℚ) ≤ sessionScore 80 100 ∧
      (saveSessionData ⟨1, 0, 80, 1, 1, some 0⟩ 80 100 2).currentStreak = 1 + 1) ∧
    (sessionScore 10 100 < 70 ∧
      (saveSessionData ⟨1, 0, 80, 1, 1, some 0⟩ 10 100 2).currentStreak = 0) ∧
    ((⟨1, 0, 80, 1, 1, some 0⟩ : Stats).lastSessionDate = some 0 ∧
      (saveSessionData ⟨1, 0, 80, 1, 1, some 0⟩ 80 100 0).currentStreak = 1) := by
  have hq : (70 : ℚ) ≤ sessionScore 80 100 := by norm_num [sessionScore]
  have hlt : sessionScore 10 100 < 70 := by norm_num [sessionScore]
  have hne : (⟨1, 0, 80, 1, 1, some 0⟩ : Stats).lastSessionDate ≠ some 2 := by
    simp
  refine ⟨⟨hne, hq, ?_⟩, ⟨hlt, ?_⟩, ⟨rfl, ?_⟩⟩
  · exact ((saveSessionData_streak ⟨1, 0, 80, 1, 1, some 0⟩ 80 100 2).1 hne hq).1
  · exact ((saveSessionData_streak ⟨1, 0, 80, 1, 1, some 0⟩ 10 100 2).2.1 hne hlt).1
  · exact ((saveSessionData_streak ⟨1, 0, 80, 1, 1, some 0⟩ 80 100 0).2.2 rfl).1

/-- C7: the session score computed on session stop equals good time
over total time times 100 when the total time is positive, and equals 0
when the total time is 0 (or not positive), so the division is guarded
and never performed with a zero denominator. -/
theorem sessionScore_guarded (g t : ℚ) :
    (0 < t → sessionScore g t = g / t * 100) ∧
    (¬ 0 < t → sessionScore g t = 0) ∧
    sessionScore g 0 = 0 := by
  unfold sessionScore
  refine ⟨fun h => if_pos h, fun h => if_neg h, ?_⟩
  norm_num

/-- Witness for sessionScore_guarded at concrete positive and zero
total times. -/
theorem sessionScore_guarded_witness :
    (0 : ℚ) < 100 ∧ sessionScore 50 100 = 50 / 100 * 100 ∧
    ¬ (0 : ℚ) < 0 ∧ sessionScore 50 0 = 0 :=
  ⟨by norm_num,
   (sessionScore_guarded 50 100).1 (by norm_num),
   by norm_num,
   (sessionScore_guarded 50 0).2.1 (by norm_num)⟩

/-! Embedding of the validity and confidence computation of
extractMeasurements from src/js/posture-analysis.js. -/

/-- A pose landmark as consumed by extractMeasurements: normalized
coordinates and a visibility confidence. -/
structure Landmark where
  x : ℚ
  y : ℚ
  visibility : ℚ
  deriving DecidableEq, Repr

/-- The five required landmark lookups of extractMeasurements
(src/js/posture-analysis.js lines 117-124): indices 0 (nose), 11 and 12
(shoulders), 23 and 24 (hips) of the keypoint list; an index beyond the
list yields none, matching an undefined array element. -/
def requiredLandmarks (landmarks : List Landmark) : List (Option Landmark) :=
  [landmarks[0]?, landmarks[11]?, landmarks[12]?, landmarks[23]?, landmarks[24]?]

/-- The per-landmark visibility test of extractMeasurements
(line 126): present with visibility strictly above 0.5. -/
def landmarkVisible : Option Landmark → Bool
  | none => false
  | some lm => decide ((0.5 : ℚ) < lm.visibility)

/-- The validity flag and confidence returned by extractMeasurements. -/
structure MeasurementValidity where
  isValid : Bool
  confidence : ℚ
  deriving DecidableEq, Repr

/-- The validity and confidence computation of extractMeasurements
(src/js/posture-analysis.js lines 114-136): when every required
landmark is present with visibility above 0.5, the frame is valid with
confidence the mean of the five visibilities; otherwise the frame is
invalid with confidence 0. The angle computations performed on valid
frames are not consumed by the claims settled here and are not
modelled. -/
def extractMeasurements (landmarks : List Landmark) : MeasurementValidity :=
  if (requiredLandmarks landmarks).all landmarkVisible then
    { isValid := true,
      confidence :=
        ((requiredLandmarks landmarks).map
          (fun l => (l.map Landmark.visibility).getD 0)).sum
          / ((requiredLandmarks landmarks).length : ℚ) }
  else { isValid := false, confidence := 0 }

/-- C8: whenever any of the five required landmarks is absent or has
visibility at most 0.5, extractMeasurements returns invalid with
confidence 0; when all five are present with visibility above 0.5 it
returns valid with confidence the arithmetic mean of the five
visibilities. -/
theorem extractMeasurements_validity (landmarks : List Landmark)
    (lm0 lm11 lm12 lm23 lm24 : Landmark) :
    ((∃ l ∈ requiredLandmarks landmarks,
        l = none ∨ ∃ lm, l = some lm ∧ lm.visibility ≤ 0.5) →
      extractMeasurements landmarks = ⟨false, 0⟩) ∧
    (landmarks[0]? = some lm0 → landmarks[11]? = some lm11 →
     landmarks[12]? = some lm12 → landmarks[23]? = some lm23 →
     landmarks[24]? = some lm24 →
     (0.5 : ℚ) < lm0.visibility → (0.5 : ℚ) < lm11.visibility →
     (0.5 : ℚ) < lm12.visibility → (0.5 : ℚ) < lm23.visibility →
     (0.5 : ℚ) < lm24.visibility →
      extractMeasurements landmarks
        = ⟨true, (lm0.visibility + lm11.visibility + lm12.visibility
                  + lm23.visibility + lm24.visibility) / 5⟩) := by
  constructor
  · rintro ⟨l, hl, hbad⟩
    have hvis : landmarkVisible l = false := by
      rcases hbad with rfl | ⟨lm, rfl, hle⟩
      · rfl
      · simp only [landmarkVisible, decide_eq_false_iff_not, not_lt]
        exact hle
    have hall : (requiredLandmarks landmarks).all landmarkVisible = false := by
      rw [List.all_eq_false]
      exact ⟨l, hl, by simp [hvis]⟩
    unfold extractMeasurements
    rw [hall]
    simp
  · intro h0 h11 h12 h23 h24 v0 v11 v12 v23 v24
    have hall : (requiredLandmarks landmarks).all landmarkVisible = true := by
      simp only [requiredLandmarks, h0, h11, h12, h23, h24, List.all_cons,
        List.all_nil, landmarkVisible, Bool.and_eq_true, decide_eq_true_eq]
      exact ⟨v0, v11, v12, v23, v24, trivial⟩
    unfold extractMeasurements
    rw [hall]
    simp only [if_true, requiredLandmarks, h0, h11, h12, h23, h24,
      List.map_cons, List.map_nil, Option.map_some', Option.getD_some,
      List.sum_cons, List.sum_nil, List.length_cons, List.length_nil]
    norm_num
    ring

/-- Witness for extractMeasurements_validity: an empty keypoint list is
rejected, and a keypoint list holding a fully visible landmark at every
index is accepted with the mean confidence. -/
theorem extractMeasurements_validity_witness :
    extractMeasurements [] = ⟨false, 0⟩ ∧
    extractMeasurements (List.replicate 25 ⟨0, 0, 1⟩)
      = ⟨true, (1 + 1 + 1 + 1 + 1) / 5⟩ := by
  constructor
  · exact (extractMeasurements_validity [] ⟨0, 0, 1⟩ ⟨0, 0, 1⟩ ⟨0, 0, 1⟩
      ⟨0, 0, 1⟩ ⟨0, 0, 1⟩).1 ⟨none, by simp [requiredLandmarks], Or.inl rfl⟩
  · exact (extractMeasurements_validity (List.replicate 25 ⟨0, 0, 1⟩)
      ⟨0, 0, 1⟩ ⟨0, 0, 1⟩ ⟨0, 0, 1⟩ ⟨0, 0, 1⟩ ⟨0, 0, 1⟩).2
      (by simp) (by simp) (by simp) (by simp) (by simp)
      (by norm_num) (by norm_num) (by norm_num) (by norm_num) (by norm_num)

end Vibespine
